import Mathlib

/-!
# Verification of the go-bldbot fleet build orchestrator

Shallow embedding of `src/main.go` (the later variant, with a remote
temp-workspace per run and a cleanup stage; `src/unnamed/part_000` is an
earlier revision of the same file).

The program's interaction with the outside world (the local filesystem and
the remote hosts reached over ssh/scp) is modelled by oracles: an `Env`
record gives, for each external operation a pipeline performs, the error the
operation returns (`none` = success, `some e` = the Go error with message
`e`).  `Builder.run` is a direct transcription of the Go control flow; in
addition to the `BuildReport` the Go function returns, it emits the list of
side-effecting `Event`s the function performs, in program order, so that
claims about which operations run (and in what order) are statable.

`filepath.Join a b` is modelled as `a ++ "/" ++ b`, its value on the clean,
relative/absolute path components this program joins.
-/

namespace Bldbot

/-- `type Slave struct` of main.go: address, display name, remote workspace
path. -/
structure Slave where
  addr : String
  name : String
  path : String
  deriving DecidableEq, Repr

/-- `Slave.LocalCommandFileName`: `filepath.Join(s.Name, "build.sh")`. -/
def Slave.localCommandFileName (s : Slave) : String :=
  s.name ++ "/build.sh"

/-- `Slave.RemoteCommandFileName`: `filepath.Join(s.Path, "build.sh")`. -/
def Slave.remoteCommandFileName (s : Slave) : String :=
  s.path ++ "/build.sh"

/-- `Slave.Ping`: runs `ssh addr "echo hello"`; `probe` is the oracle for that
remote command's outcome (`some (e, out)` = CombinedOutput returned error `e`
with output `out`).  On failure the Go method wraps it in a formatted error. -/
def Slave.ping (s : Slave) (probe : Option (String × String)) : Option String :=
  match probe with
  | some (e, out) =>
      some ("slave [" ++ s.name ++ "] did not respond (" ++ e ++ ": " ++ out ++ ")")
  | none => none

/-- `type BuildReport struct`: the slave, a message, and the error
(`none` = nil). -/
structure BuildReport where
  slave : Slave
  msg : String
  err : Option String
  deriving DecidableEq, Repr

/-- `type Builder struct`: the slave and its logfile handle.  The handle is
modelled by the name of the log file when `os.Create` succeeded, `none` when
it failed (the Go code keeps the nil handle and builds anyway). -/
structure Builder where
  slave : Slave
  w : Option String
  deriving DecidableEq, Repr

/-- The six stages of `Builder.run`, in source order. -/
inductive Stage where
  | validateLocalScript
  | prepareRemoteWorkspace
  | uploadScript
  | executeRemoteBuild
  | retrieveArtifacts
  | cleanupRemoteWorkspace
  deriving DecidableEq, Repr

/-- Side-effecting operations of the program, recorded in program order.
`stageStart s` marks entry into the code block of stage `s` of
`Builder.run`; the remaining constructors record one local-filesystem, log,
or remote operation each. -/
inductive Event where
  | stageStart (s : Stage)
  | logWrite (line : String)
  | logSync
  | logClose
  | openLocal (path : String)
  | closeLocal
  | remoteExec (addr : String) (cmd : String)
  | copyFile (src : String) (dst : String)
  | mkdirAllLocal (path : String)
  | createLocal (path : String)
  | tempDirLocal (dir : String)
  | removeAllLocal (path : String)
  deriving DecidableEq, Repr

/-- Outcomes of the external operations one `Builder.run` performs:
`none` = the operation succeeded, `some e` = it returned error `e`.
The fields are in the order the Go function consults them. -/
structure Env where
  openErr : Option String
  mkdirErr : Option String
  uploadErr : Option String
  buildErr : Option String
  retrieveErr : Option String
  cleanupErr : Option String
  deriving DecidableEq, Repr

/-- `func (b Builder) run() BuildReport` of main.go, lines 60–189, transcribed
branch by branch.  Returns the report together with the trace of events the
function performs.  The deferred `f.Close()` on the opened local script file
fires at every return after the successful `os.Open`, hence the trailing
`closeLocal` on those paths.  Note the log sink: `b.w.Sync(); b.w.Close()`
runs only straight after the artifact-retrieval `scp` (lines 155–156); no
earlier return path closes it. -/
def Builder.run (env : Env) (b : Builder) : BuildReport × List Event :=
  let fname := b.slave.localCommandFileName
  let evts0 : List Event :=
    [Event.logWrite "## build -- start",
     Event.stageStart Stage.validateLocalScript,
     Event.openLocal fname]
  match env.openErr with
  | some e =>
      (⟨b.slave, "no such file [" ++ fname ++ "] (err=" ++ e ++ ")", some e⟩,
       evts0)
  | none =>
    let evts1 := evts0 ++
      [Event.stageStart Stage.prepareRemoteWorkspace,
       Event.remoteExec b.slave.addr ("mkdir -p " ++ b.slave.path)]
    match env.mkdirErr with
    | some e =>
        (⟨b.slave, "failed to copy [" ++ fname ++ "]", some e⟩,
         evts1 ++ [Event.closeLocal])
    | none =>
      let evts2 := evts1 ++
        [Event.stageStart Stage.uploadScript,
         Event.logWrite "## build -- copying build-script...",
         Event.logSync,
         Event.copyFile fname (b.slave.addr ++ ":" ++ b.slave.remoteCommandFileName)]
      match env.uploadErr with
      | some e =>
          (⟨b.slave, "failed to copy [" ++ fname ++ "]", some e⟩,
           evts2 ++ [Event.closeLocal])
      | none =>
        let evts3 := evts2 ++
          [Event.stageStart Stage.executeRemoteBuild,
           Event.logWrite "## build -- running build-script...",
           Event.logSync,
           Event.remoteExec b.slave.addr
             ("time " ++ b.slave.remoteCommandFileName ++ " " ++ b.slave.path)]
        match env.buildErr with
        | some e =>
            (⟨b.slave, "build failed", some e⟩, evts3 ++ [Event.closeLocal])
        | none =>
          let evts4 := evts3 ++
            [Event.stageStart Stage.retrieveArtifacts,
             Event.logWrite "## build -- retrieving output(s)...",
             Event.logSync,
             Event.copyFile (b.slave.addr ++ ":" ++ b.slave.path ++ "/output/*.tar.gz")
               "output/.",
             Event.logSync,
             Event.logClose]
          match env.retrieveErr with
          | some e =>
              (⟨b.slave, "failed to retrieve outputs", some e⟩,
               evts4 ++ [Event.closeLocal])
          | none =>
            let evts5 := evts4 ++
              [Event.stageStart Stage.cleanupRemoteWorkspace,
               Event.logWrite "## build -- cleaning up...",
               Event.logSync,
               Event.remoteExec b.slave.addr ("/bin/rm -rf " ++ b.slave.path)]
            match env.cleanupErr with
            | some e =>
                (⟨b.slave, "clean-up failed", some e⟩, evts5 ++ [Event.closeLocal])
            | none =>
                (⟨b.slave, "ok", none⟩, evts5 ++ [Event.closeLocal])

/-- The fixed source order of the pipeline's stages. -/
def stageOrder : List Stage :=
  [Stage.validateLocalScript, Stage.prepareRemoteWorkspace, Stage.uploadScript,
   Stage.executeRemoteBuild, Stage.retrieveArtifacts, Stage.cleanupRemoteWorkspace]

/-- The stages a trace entered, in order. -/
def stagesOf (tr : List Event) : List Stage :=
  tr.filterMap fun e =>
    match e with
    | Event.stageStart s => some s
    | _ => none

/-- The first stage of `Builder.run` whose external operation fails under
`env`, with that operation's error — the specification-side description of
the fail-fast control flow. -/
def firstFailingStage (env : Env) : Option (Stage × String) :=
  match env.openErr with
  | some e => some (Stage.validateLocalScript, e)
  | none =>
    match env.mkdirErr with
    | some e => some (Stage.prepareRemoteWorkspace, e)
    | none =>
      match env.uploadErr with
      | some e => some (Stage.uploadScript, e)
      | none =>
        match env.buildErr with
        | some e => some (Stage.executeRemoteBuild, e)
        | none =>
          match env.retrieveErr with
          | some e => some (Stage.retrieveArtifacts, e)
          | none =>
            match env.cleanupErr with
            | some e => some (Stage.cleanupRemoteWorkspace, e)
            | none => none

/-- The report message `Builder.run` produces when stage `st` fails with
error `e`, per the templates in the source. -/
def failureMsg (s : Slave) (st : Stage) (e : String) : String :=
  match st with
  | Stage.validateLocalScript =>
      "no such file [" ++ s.localCommandFileName ++ "] (err=" ++ e ++ ")"
  | Stage.prepareRemoteWorkspace => "failed to copy [" ++ s.localCommandFileName ++ "]"
  | Stage.uploadScript => "failed to copy [" ++ s.localCommandFileName ++ "]"
  | Stage.executeRemoteBuild => "build failed"
  | Stage.retrieveArtifacts => "failed to retrieve outputs"
  | Stage.cleanupRemoteWorkspace => "clean-up failed"

/-- Outcomes of the external operations `main`'s discovery loop performs per
slave, plus the global `logs` directory creation: `probe s` is the result of
`ssh s.Addr "echo hello"` (the liveness check), `mkdirLogsErr` of
`os.MkdirAll("logs", 0755)`, `createLogErr s` of `os.Create("logs/<name>.txt")`,
and `tmpdir s` / `tmpdirErr s` of `ioutil.TempDir("", "go-bldbot-")`. -/
structure DiscoveryEnv where
  probe : Slave → Option (String × String)
  mkdirLogsErr : Option String
  createLogErr : Slave → Option String
  tmpdir : Slave → String
  tmpdirErr : Slave → Option String

/-- The builder the discovery loop appends for a live slave: the slave with
its `Path` replaced by the generated temp directory, and the created logfile
(`none` when `os.Create` failed — the Go code logs and keeps the nil handle). -/
def mkBuilder (d : DiscoveryEnv) (s : Slave) : Builder :=
  ⟨{ s with path := d.tmpdir s },
   match d.createLogErr s with
   | some _ => none
   | none => some ("logs/" ++ s.name ++ ".txt")⟩

/-- One iteration of `main`'s discovery loop (main.go lines 210–243) for
slave `s`: ping, and on success create the logs directory, the logfile and
the temp workspace name.  `Except.error` is a `log.Panicf` (the process
aborts); `Option.none` in the result means the slave was skipped. -/
def discoverStep (d : DiscoveryEnv) (s : Slave) :
    Except String (Option Builder × List Event) :=
  match s.ping (d.probe s) with
  | some _ => Except.ok (none, [])
  | none =>
    match d.mkdirLogsErr with
    | some e => Except.error ("could create logs directory ! (err=" ++ e ++ ")")
    | none =>
      let fname := "logs/" ++ s.name ++ ".txt"
      let created : List Event :=
        match d.createLogErr s with
        | some _ => []
        | none => [Event.createLocal fname]
      match d.tmpdirErr s with
      | some e =>
          Except.error ("could not create tempdir for slave [" ++ s.name ++
            "] (err=" ++ e ++ ")")
      | none =>
          Except.ok (some (mkBuilder d s),
            [Event.mkdirAllLocal "logs"] ++ created ++
            [Event.tempDirLocal (d.tmpdir s),
             Event.removeAllLocal (d.tmpdir s)])

/-- `main`'s discovery loop over the configured slave list: the builders in
configuration order, and the local side effects, in order.  A `log.Panicf`
mid-loop aborts the whole run (`Except.error`). -/
def discover (d : DiscoveryEnv) : List Slave → Except String (List Builder × List Event)
  | [] => Except.ok ([], [])
  | s :: rest =>
    match discoverStep d s with
    | Except.error e => Except.error e
    | Except.ok (ob, evts) =>
      match discover d rest with
      | Except.error e => Except.error e
      | Except.ok (bs, evts2) => Except.ok (ob.toList ++ bs, evts ++ evts2)

/-- The reports of the dispatched pipelines, one per constructed builder, in
dispatch order (`env b.slave` gives the remote-operation outcomes for that
builder's run). -/
def dispatchReports (env : Slave → Env) (bs : List Builder) : List BuildReport :=
  bs.map fun b => (Builder.run (env b.slave) b).1

/-- The concatenated event traces of the dispatched pipelines (sequential
mode; in parallel mode the per-pipeline traces interleave but each pipeline's
own trace is unchanged). -/
def dispatchTrace (env : Slave → Env) (bs : List Builder) : List Event :=
  (bs.map fun b => (Builder.run (env b.slave) b).2).flatten

/-- `main`'s verdict aggregation (lines 258–290): `allgood` starts `true` and
is set to `false` for every report whose error is non-nil, in arrival order —
the same fold in sequential and in parallel mode. -/
def aggregate (reports : List BuildReport) : Bool :=
  reports.foldl (fun allgood r => if r.err.isSome then false else allgood) true

/-- `main`'s exit status (lines 292–295): `os.Exit(1)` when not `allgood`,
normal termination (status 0) otherwise. -/
def exitStatus (reports : List BuildReport) : Nat :=
  if aggregate reports then 0 else 1

/-- Number of `logClose` events (closings of the pipeline's log sink) in a
trace. -/
def countClose : List Event → Nat
  | [] => 0
  | Event.logClose :: tr => countClose tr + 1
  | _ :: tr => countClose tr

/-- `true` on events that touch a remote host (`ssh` execution or `scp`
copy). -/
def isRemoteOp : Event → Bool
  | Event.remoteExec _ _ => true
  | Event.copyFile _ _ => true
  | _ => false

/-- `true` on events that create a local filesystem resource
(`os.MkdirAll` or `os.Create`). -/
def isLocalCreate : Event → Bool
  | Event.mkdirAllLocal _ => true
  | Event.createLocal _ => true
  | _ => false

/-- `true` on events that use the per-slave log sink (write, flush or
close). -/
def isLogUse : Event → Bool
  | Event.logWrite _ => true
  | Event.logSync => true
  | Event.logClose => true
  | _ => false

/-- The shape of every local side effect the discovery loop performs: the
recursive, ensure-exists creation of the `logs` directory, the creation of a
per-slave `logs/<name>.txt` logfile, or the temp-workspace bookkeeping
(`ioutil.TempDir` and the immediate `os.RemoveAll`). -/
def discoveryEventOk (slaves : List Slave) (e : Event) : Prop :=
  e = Event.mkdirAllLocal "logs" ∨
  (∃ s ∈ slaves, e = Event.createLocal ("logs/" ++ s.name ++ ".txt")) ∨
  (∃ dir, e = Event.tempDirLocal dir) ∨
  (∃ p, e = Event.removeAllLocal p)

/-! Concrete sample inputs, used to evaluate the development on closed
instances. -/

/-- A sample slave record. -/
def slaveA : Slave := ⟨"user@hostA", "A", "/tmp/bldA"⟩

/-- A builder for `slaveA` with a successfully created logfile. -/
def builderA : Builder := ⟨slaveA, some "logs/A.txt"⟩

/-- Every external operation succeeds. -/
def envAllOk : Env := ⟨none, none, none, none, none, none⟩

/-- Opening the local build script fails. -/
def envMissingScript : Env := ⟨some "ENOENT", none, none, none, none, none⟩

/-- The remote `mkdir -p` fails. -/
def envMkdirFails : Env := ⟨none, some "exit status 1", none, none, none, none⟩

/-- The remote build script exits non-zero. -/
def envBuildFails : Env := ⟨none, none, none, some "exit status 2", none, none⟩

/-- A second sample slave, used as the unreachable one. -/
def slaveX : Slave := ⟨"user@hostX", "X", "/build"⟩

/-- A discovery environment in which slave `X` fails the liveness probe and
every other external operation succeeds. -/
def dXdead : DiscoveryEnv :=
  ⟨fun s => if s.name = "X" then some ("exit status 255", "") else none,
   none, fun _ => none, fun s => "/tmp/go-bldbot-" ++ s.name, fun _ => none⟩

/-- Every dispatched pipeline's external operations succeed. -/
def envOkAll : Slave → Env := fun _ => envAllOk

/-- The builders `discover dXdead [slaveX, slaveA]` constructs. -/
def buildersLiveA : List Builder := [mkBuilder dXdead slaveA]

/-- The local side effects of `discover dXdead [slaveX, slaveA]`. -/
def discoveryEventsA : List Event :=
  [Event.mkdirAllLocal "logs", Event.createLocal "logs/A.txt",
   Event.tempDirLocal "/tmp/go-bldbot-A", Event.removeAllLocal "/tmp/go-bldbot-A"]

/-- A successful sample report. -/
def reportOkA : BuildReport := ⟨slaveA, "ok", none⟩

/-- A failing sample report. -/
def reportFailX : BuildReport := ⟨slaveX, "build failed", some "exit status 2"⟩

/-! Helper lemmas. -/

/-- `countClose` distributes over list append. -/
theorem countClose_append (xs ys : List Event) :
    countClose (xs ++ ys) = countClose xs + countClose ys := by
  induction xs with
  | nil => simp [countClose]
  | cons x xs ih => cases x <;> simp [countClose, ih, Nat.add_right_comm]

/-- The verdict fold of `main` computes the conjunction of the starting
accumulator with "every report's error is nil". -/
theorem foldl_verdict (l : List BuildReport) (a : Bool) :
    l.foldl (fun acc r => if r.err.isSome then false else acc) a
      = (a && l.all fun r => r.err.isNone) := by
  induction l generalizing a with
  | nil => simp
  | cons x xs ih =>
    rw [List.foldl_cons, List.all_cons, ih]
    rcases x with ⟨s, m, e⟩
    cases e <;> simp [Bool.and_assoc]

/-- `aggregate` is the AND of the reports' success flags. -/
theorem aggregate_eq_all (l : List BuildReport) :
    aggregate l = l.all fun r => r.err.isNone := by
  unfold aggregate
  rw [foldl_verdict]
  simp

/-- **C10**: `Builder.run` embeds the builder's slave descriptor unchanged in
the returned report on every exit path; no field (address, name, workspace
path) is modified. -/
theorem run_preserves_slave_descriptor (env : Env) (b : Builder) :
    (Builder.run env b).1.slave = b.slave ∧
    (Builder.run env b).1.slave.addr = b.slave.addr ∧
    (Builder.run env b).1.slave.name = b.slave.name ∧
    (Builder.run env b).1.slave.path = b.slave.path := by
  rcases env with ⟨o, m, u, bl, r, c⟩
  cases o <;> cases m <;> cases u <;> cases bl <;> cases r <;> cases c <;>
    simp [Builder.run]

/-- **C7**: the report's error is non-nil iff some stage failed; when no
stage fails the report is exactly `⟨slave, "ok", nil⟩`; when a stage fails
the report carries that stage's error and that stage's message template. -/
theorem report_error_iff_stage_failed (env : Env) (b : Builder) :
    ((Builder.run env b).1.err.isSome ↔ (firstFailingStage env).isSome) ∧
    (firstFailingStage env = none →
      (Builder.run env b).1 = ⟨b.slave, "ok", none⟩) ∧
    (∀ st e, firstFailingStage env = some (st, e) →
      (Builder.run env b).1.err = some e ∧
      (Builder.run env b).1.msg = failureMsg b.slave st e) := by
  rcases env with ⟨o, m, u, bl, r, c⟩
  cases o <;> cases m <;> cases u <;> cases bl <;> cases r <;> cases c <;>
    simp [Builder.run, firstFailingStage, failureMsg]

/-- Closed instance of `report_error_iff_stage_failed`: a failing open stage
yields that stage's error and message template. -/
theorem report_error_iff_stage_failed_witness :
    (Builder.run envMissingScript builderA).1.err = some "ENOENT" ∧
    (Builder.run envMissingScript builderA).1.msg =
      failureMsg slaveA Stage.validateLocalScript "ENOENT" :=
  (report_error_iff_stage_failed envMissingScript builderA).2.2
    Stage.validateLocalScript "ENOENT" rfl

/-- **C2**: the stages a run enters are always an in-order prefix of
`stageOrder` (fixed order, nothing skipped), no stage repeats (no retry), on
a failure-free run every stage runs, and on a failing run the first failing
stage is the last stage entered and determines the report's error. -/
theorem run_stage_order_fail_fast (env : Env) (b : Builder) :
    stagesOf (Builder.run env b).2 <+: stageOrder ∧
    (stagesOf (Builder.run env b).2).Nodup ∧
    (firstFailingStage env = none → stagesOf (Builder.run env b).2 = stageOrder) ∧
    (∀ st e, firstFailingStage env = some (st, e) →
      (stagesOf (Builder.run env b).2).getLast? = some st ∧
      (Builder.run env b).1.err = some e) := by
  rcases env with ⟨o, m, u, bl, r, c⟩
  cases o <;> cases m <;> cases u <;> cases bl <;> cases r <;> cases c <;>
    simp [Builder.run, firstFailingStage, stagesOf, stageOrder]

/-- Closed instance of `run_stage_order_fail_fast`: with a failing remote
build, the last stage entered is `executeRemoteBuild` and the report carries
its error. -/
theorem run_stage_order_fail_fast_witness :
    (stagesOf (Builder.run envBuildFails builderA).2).getLast? =
      some Stage.executeRemoteBuild ∧
    (Builder.run envBuildFails builderA).1.err = some "exit status 2" :=
  (run_stage_order_fail_fast envBuildFails builderA).2.2.2
    Stage.executeRemoteBuild "exit status 2" rfl

/-- **C4**: when the remote `mkdir -p <workspacePath>` fails (and the local
script opened), the pipeline terminates with the "failed to copy
[<local script path>]" message template and the non-nil remote error. -/
theorem mkdir_fail_copy_message (env : Env) (b : Builder) (e : String)
    (h1 : env.openErr = none) (h2 : env.mkdirErr = some e) :
    (Builder.run env b).1.msg =
      "failed to copy [" ++ b.slave.localCommandFileName ++ "]" ∧
    (Builder.run env b).1.err = some e := by
  rcases env with ⟨o, m, u, bl, r, c⟩
  dsimp at h1 h2
  subst h1
  subst h2
  simp [Builder.run]

/-- Closed instance of `mkdir_fail_copy_message`. -/
theorem mkdir_fail_copy_message_witness :
    (Builder.run envMkdirFails builderA).1.msg =
      "failed to copy [" ++ slaveA.localCommandFileName ++ "]" ∧
    (Builder.run envMkdirFails builderA).1.err = some "exit status 1" :=
  mkdir_fail_copy_message envMkdirFails builderA "exit status 1" rfl rfl

/-- **C6**: when opening the local build script fails, the report's message
is the "no such file" template — it begins with
`no such file [<name>/build.sh]` — its error is non-nil, and the trace
contains no remote operation (no `ssh` execution, no `scp` copy). -/
theorem missing_script_no_remote_ops (env : Env) (b : Builder) (e : String)
    (h : env.openErr = some e) :
    (Builder.run env b).1.msg =
      "no such file [" ++ b.slave.localCommandFileName ++ "] (err=" ++ e ++ ")" ∧
    (∃ rest, (Builder.run env b).1.msg =
      ("no such file [" ++ b.slave.name ++ "/build.sh]") ++ rest) ∧
    (Builder.run env b).1.err = some e ∧
    ((Builder.run env b).2.all fun ev => !isRemoteOp ev) := by
  rcases env with ⟨o, m, u, bl, r, c⟩
  dsimp at h
  subst h
  refine ⟨rfl, ⟨" (err=" ++ e ++ ")", ?_⟩, rfl, ?_⟩
  · show "no such file [" ++ (b.slave.name ++ "/build.sh") ++ "] (err=" ++ e ++ ")"
      = ("no such file [" ++ b.slave.name ++ "/build.sh]") ++ (" (err=" ++ e ++ ")")
    simp [String.append_assoc]
    rw [← String.append_assoc "/build.sh]" " (err="]
    rfl
  · simp [Builder.run, isRemoteOp]

/-- Closed instance of `missing_script_no_remote_ops`. -/
theorem missing_script_no_remote_ops_witness :
    (∃ rest, (Builder.run envMissingScript builderA).1.msg =
      ("no such file [" ++ slaveA.name ++ "/build.sh]") ++ rest) ∧
    ((Builder.run envMissingScript builderA).2.all fun ev => !isRemoteOp ev) :=
  ⟨(missing_script_no_remote_ops envMissingScript builderA "ENOENT" rfl).2.1,
   (missing_script_no_remote_ops envMissingScript builderA "ENOENT" rfl).2.2.2⟩

/-- **C3, counterexample**: a run that fails at the local-script stage is a
failure exit path on which the log sink is never closed — refuting "the log
sink is flushed and closed exactly once on every exit path". -/
theorem log_close_skipped_on_early_failure :
    (Builder.run envMissingScript builderA).1.err.isSome = true ∧
    countClose (Builder.run envMissingScript builderA).2 = 0 := by
  constructor <;> rfl

/-- **C3, amended**: the log sink is closed exactly once on every exit path
that reaches the artifact-retrieval stage (retrieve failure, cleanup failure,
success) — and there with a flush (`Sync`) immediately before — while on exit
paths failing before retrieval (missing script, workspace prep, upload,
remote build) it is never closed. -/
theorem log_close_count (env : Env) (b : Builder) :
    countClose (Builder.run env b).2 =
      (if env.openErr = none ∧ env.mkdirErr = none ∧ env.uploadErr = none ∧
          env.buildErr = none then 1 else 0) ∧
    (env.openErr = none → env.mkdirErr = none → env.uploadErr = none →
      env.buildErr = none →
      [Event.logSync, Event.logClose] <:+: (Builder.run env b).2) := by
  rcases env with ⟨o, m, u, bl, r, c⟩
  cases o <;> cases m <;> cases u <;> cases bl <;> cases r <;> cases c <;>
    simp [Builder.run, countClose, countClose_append] <;>
    repeat
      first
      | exact List.IsPrefix.isInfix ⟨_, rfl⟩
      | apply List.infix_cons

/-- Closed instance of `log_close_count`: on an all-success run the sink is
closed exactly once, after a flush. -/
theorem log_close_count_witness :
    countClose (Builder.run envAllOk builderA).2 = 1 ∧
    [Event.logSync, Event.logClose] <:+: (Builder.run envAllOk builderA).2 := by
  refine ⟨?_, (log_close_count envAllOk builderA).2 rfl rfl rfl rfl⟩
  have h := (log_close_count envAllOk builderA).1
  simpa using h

/-- **C1**: over any set of dispatched reports, in any arrival order (any
permutation, covering both concurrency modes), `main`'s verdict fold is the
AND of the reports' success flags, and the process exit status is 0 when
every report's error is nil and 1 otherwise. -/
theorem verdict_and_of_reports (reports arrival : List BuildReport)
    (h : arrival.Perm reports) :
    aggregate arrival = (reports.all fun r => r.err.isNone) ∧
    exitStatus arrival = (if ∀ r ∈ reports, r.err = none then 0 else 1) := by
  have hall : aggregate arrival = (reports.all fun r => r.err.isNone) := by
    rw [aggregate_eq_all]
    refine Bool.eq_iff_iff.mpr ?_
    simp only [List.all_eq_true]
    exact ⟨fun hx r hr => hx r (h.mem_iff.mpr hr),
           fun hx r hr => hx r (h.mem_iff.mp hr)⟩
  have hiff : (reports.all fun r => r.err.isNone) = true ↔
      ∀ r ∈ reports, r.err = none := by
    simp [List.all_eq_true, Option.isNone_iff_eq_none]
  refine ⟨hall, ?_⟩
  unfold exitStatus
  rw [hall]
  exact if_congr hiff rfl rfl

/-- Closed instance of `verdict_and_of_reports`: one failing and one
succeeding report, arriving in reversed order, still yield exit status 1. -/
theorem verdict_and_of_reports_witness :
    aggregate [reportFailX, reportOkA] =
      ([reportOkA, reportFailX].all fun r => r.err.isNone) ∧
    exitStatus [reportFailX, reportOkA] =
      (if ∀ r ∈ [reportOkA, reportFailX], r.err = none then 0 else 1) :=
  verdict_and_of_reports [reportOkA, reportFailX] [reportFailX, reportOkA]
    (by decide)

/-- A list of slaves that all fail the liveness probe is discovered as an
empty builder list with no local side effects. -/
theorem discover_all_dead (d : DiscoveryEnv) :
    ∀ slaves : List Slave, (∀ s ∈ slaves, (s.ping (d.probe s)).isSome) →
      discover d slaves = Except.ok ([], []) := by
  intro slaves
  induction slaves with
  | nil => intro _; rfl
  | cons s rest ih =>
    intro hl
    have hs := hl s (by simp)
    rcases hps : s.ping (d.probe s) with _ | v
    · rw [hps] at hs; simp at hs
    · have hrest := ih fun x hx => hl x (by simp [hx])
      rw [discover]
      simp [discoverStep, hps, hrest]

/-- **C9**: when every configured slave fails the liveness probe (vacuously,
also when none is configured), discovery produces no builders and no local
side effects, the dispatched report set is empty, the verdict is vacuously
true and the exit status is 0. -/
theorem empty_dispatch_exits_zero (d : DiscoveryEnv) (env : Slave → Env)
    (slaves : List Slave) (h : ∀ s ∈ slaves, (s.ping (d.probe s)).isSome) :
    discover d slaves = Except.ok ([], []) ∧
    dispatchReports env [] = [] ∧ dispatchTrace env [] = [] ∧
    aggregate [] = true ∧ exitStatus [] = 0 :=
  ⟨discover_all_dead d slaves h, rfl, rfl, rfl, rfl⟩

/-- Closed instance of `empty_dispatch_exits_zero`. -/
theorem empty_dispatch_exits_zero_witness :
    discover dXdead [slaveX] = Except.ok ([], []) ∧ exitStatus [] = 0 :=
  ⟨(empty_dispatch_exits_zero dXdead envOkAll [slaveX] (by decide)).1,
   (empty_dispatch_exits_zero dXdead envOkAll [slaveX] (by decide)).2.2.2.2⟩

/-- When discovery succeeds, the builders are exactly one per configured
slave that passed the liveness probe, in configuration order, each built by
`mkBuilder`. -/
theorem discover_ok_builders (d : DiscoveryEnv) (slaves : List Slave)
    (bs : List Builder) (evts : List Event)
    (h : discover d slaves = Except.ok (bs, evts)) :
    bs = (slaves.filter fun s => (s.ping (d.probe s)).isNone).map (mkBuilder d) := by
  induction slaves generalizing bs evts with
  | nil =>
    rw [discover] at h
    simp at h
    simp [h.1]
  | cons s rest ih =>
    rw [discover] at h
    rcases hps : s.ping (d.probe s) with _ | v
    · -- s is live: discoverStep depends on the panic oracles
      rcases hm : d.mkdirLogsErr with _ | e
      · rcases ht : d.tmpdirErr s with _ | e
        · simp only [discoverStep, hps, hm, ht] at h
          rcases hrest : discover d rest with e' | ⟨bs', evts'⟩ <;> rw [hrest] at h
          · simp at h
          · simp at h
            rw [List.filter_cons_of_pos (by simp [hps])]
            simp [← h.1, ih bs' evts' hrest]
        · simp [discoverStep, hps, hm, ht] at h
      · simp [discoverStep, hps, hm] at h
    · -- s is dead: skipped
      simp only [discoverStep, hps] at h
      rcases hrest : discover d rest with e' | ⟨bs', evts'⟩ <;> rw [hrest] at h
      · simp at h
      · simp at h
        rw [List.filter_cons_of_neg (by simp [hps])]
        simp [← h.1, ih bs' evts' hrest]

/-- Discovery gives the same outcome on the configured list and on its live
(probe-passing) sublist: dead slaves contribute nothing. -/
theorem discover_filter_live (d : DiscoveryEnv) (slaves : List Slave) :
    discover d (slaves.filter fun s => (s.ping (d.probe s)).isNone) =
      discover d slaves := by
  induction slaves with
  | nil => rfl
  | cons s rest ih =>
    rcases hps : s.ping (d.probe s) with _ | v
    · rw [List.filter_cons_of_pos (by simp [hps])]
      rw [discover, discover, ih]
    · rw [List.filter_cons_of_neg (by simp [hps])]
      rw [ih, discover]
      simp only [discoverStep, hps]
      rcases hrest : discover d rest with e' | ⟨bs', evts'⟩ <;> simp

/-- **C5**: a slave that fails the liveness probe yields no builder — the
builders are exactly those of the probe-passing slaves, and discovery is
unchanged by dropping dead slaves — and when every dispatched pipeline
succeeds the run exits 0 regardless of how many slaves were unreachable. -/
theorem dead_slave_excluded (d : DiscoveryEnv) (env : Slave → Env)
    (slaves : List Slave) (bs : List Builder) (evts : List Event)
    (h : discover d slaves = Except.ok (bs, evts)) :
    bs = (slaves.filter fun s => (s.ping (d.probe s)).isNone).map (mkBuilder d) ∧
    discover d (slaves.filter fun s => (s.ping (d.probe s)).isNone) =
      Except.ok (bs, evts) ∧
    ((∀ b ∈ bs, (Builder.run (env b.slave) b).1.err = none) →
      exitStatus (dispatchReports env bs) = 0) := by
  refine ⟨discover_ok_builders d slaves bs evts h, ?_, ?_⟩
  · rw [discover_filter_live]; exact h
  · intro hok
    have hall : (dispatchReports env bs).all (fun r => r.err.isNone) = true := by
      rw [List.all_eq_true]
      intro r hr
      obtain ⟨b, hb, rfl⟩ := List.mem_map.mp hr
      simp [hok b hb]
    unfold exitStatus
    rw [aggregate_eq_all, hall]
    rfl

/-- Closed instance of `dead_slave_excluded`: slave `X` unreachable, slave
`A` live and fully succeeding — one builder, exit status 0. -/
theorem dead_slave_excluded_witness :
    buildersLiveA =
      ([slaveX, slaveA].filter fun s => (s.ping (dXdead.probe s)).isNone).map
        (mkBuilder dXdead) ∧
    exitStatus (dispatchReports envOkAll buildersLiveA) = 0 :=
  ⟨(dead_slave_excluded dXdead envOkAll [slaveX, slaveA] buildersLiveA
      discoveryEventsA rfl).1,
   (dead_slave_excluded dXdead envOkAll [slaveX, slaveA] buildersLiveA
      discoveryEventsA rfl).2.2 (by decide)⟩

/-- A pipeline run performs no local-creation operation: `Builder.run` calls
neither `os.MkdirAll` nor `os.Create`. -/
theorem run_no_local_creation (env : Env) (b : Builder) :
    ((Builder.run env b).2.all fun e => !isLocalCreate e) = true := by
  rcases env with ⟨o, m, u, bl, r, c⟩
  cases o <;> cases m <;> cases u <;> cases bl <;> cases r <;> cases c <;>
    simp [Builder.run, isLocalCreate]

/-- `discoveryEventOk` is monotone in the slave list. -/
theorem discoveryEventOk_cons (s : Slave) (slaves : List Slave) (e : Event)
    (h : discoveryEventOk slaves e) : discoveryEventOk (s :: slaves) e := by
  rcases h with h | ⟨s', hs', rfl⟩ | h | h
  · exact Or.inl h
  · exact Or.inr (Or.inl ⟨s', by simp [hs'], rfl⟩)
  · exact Or.inr (Or.inr (Or.inl h))
  · exact Or.inr (Or.inr (Or.inr h))

/-- A discovery-phase event neither uses the log sink nor touches a remote
host. -/
theorem discoveryEventOk_not_use (slaves : List Slave) (e : Event)
    (h : discoveryEventOk slaves e) :
    isLogUse e = false ∧ isRemoteOp e = false := by
  rcases h with rfl | ⟨s', _, rfl⟩ | ⟨dir, rfl⟩ | ⟨p, rfl⟩ <;>
    exact ⟨rfl, rfl⟩

/-- Every local side effect of a successful discovery has the
`discoveryEventOk` shape. -/
theorem discover_events (d : DiscoveryEnv) (slaves : List Slave)
    (bs : List Builder) (evts : List Event)
    (h : discover d slaves = Except.ok (bs, evts)) :
    ∀ e ∈ evts, discoveryEventOk slaves e := by
  induction slaves generalizing bs evts with
  | nil =>
    rw [discover] at h
    simp at h
    rw [h.2]
    intro e he
    simp at he
  | cons s rest ih =>
    rw [discover] at h
    rcases hps : s.ping (d.probe s) with _ | v
    · rcases hm : d.mkdirLogsErr with _ | e0
      · rcases ht : d.tmpdirErr s with _ | e0
        · simp only [discoverStep, hps, hm, ht] at h
          rcases hrest : discover d rest with e' | ⟨bs', evts'⟩ <;> rw [hrest] at h
          · simp at h
          · simp at h
            intro e he
            rw [← h.2] at he
            rcases hc : d.createLogErr s with _ | e1 <;> rw [hc] at he <;> simp at he
            · rcases he with rfl | rfl | rfl | rfl | he
              · exact Or.inl rfl
              · exact Or.inr (Or.inl ⟨s, by simp, rfl⟩)
              · exact Or.inr (Or.inr (Or.inl ⟨_, rfl⟩))
              · exact Or.inr (Or.inr (Or.inr ⟨_, rfl⟩))
              · exact discoveryEventOk_cons s rest e (ih bs' evts' hrest e he)
            · rcases he with rfl | rfl | rfl | he
              · exact Or.inl rfl
              · exact Or.inr (Or.inr (Or.inl ⟨_, rfl⟩))
              · exact Or.inr (Or.inr (Or.inr ⟨_, rfl⟩))
              · exact discoveryEventOk_cons s rest e (ih bs' evts' hrest e he)
        · simp [discoverStep, hps, hm, ht] at h
      · simp [discoverStep, hps, hm] at h
    · simp only [discoverStep, hps] at h
      rcases hrest : discover d rest with e' | ⟨bs', evts'⟩ <;> rw [hrest] at h
      · simp at h
      · simp at h
        intro e he
        rw [← h.2] at he
        exact discoveryEventOk_cons s rest e (ih bs' evts' hrest e he)

/-- **C8, amended**: on a successful discovery, every local creation happens
in the discovery phase and is one of the `logs` directory (recursive,
ensure-exists), a `logs/<name>.txt` logfile, or temp-workspace bookkeeping;
the dispatched pipelines (whose traces hold all log-sink uses and the copy
into `output/`) perform no local creation at all — in particular, nothing
ever creates the `output/` directory — and the discovery phase, which
precedes every pipeline, performs no log-sink use and no remote operation. -/
theorem local_resource_creation (d : DiscoveryEnv) (env : Slave → Env)
    (slaves : List Slave) (bs : List Builder) (evts : List Event)
    (h : discover d slaves = Except.ok (bs, evts)) :
    (∀ e ∈ evts, discoveryEventOk slaves e) ∧
    ((dispatchTrace env bs).all fun e => !isLocalCreate e) ∧
    (∀ e ∈ evts, isLogUse e = false ∧ isRemoteOp e = false) := by
  have hevts := discover_events d slaves bs evts h
  refine ⟨hevts, ?_, fun e he => discoveryEventOk_not_use slaves e (hevts e he)⟩
  rw [List.all_eq_true]
  intro e he
  rw [dispatchTrace] at he
  simp only [List.mem_flatten, List.mem_map] at he
  obtain ⟨l, ⟨b, hb, rfl⟩, hel⟩ := he
  have hall := run_no_local_creation (env b.slave) b
  rw [List.all_eq_true] at hall
  exact hall e hel

/-- Closed instance of `local_resource_creation`. -/
theorem local_resource_creation_witness :
    (∀ e ∈ discoveryEventsA, discoveryEventOk [slaveX, slaveA] e) ∧
    ((dispatchTrace envOkAll buildersLiveA).all fun e => !isLocalCreate e) :=
  ⟨(local_resource_creation dXdead envOkAll [slaveX, slaveA] buildersLiveA
      discoveryEventsA rfl).1,
   (local_resource_creation dXdead envOkAll [slaveX, slaveA] buildersLiveA
      discoveryEventsA rfl).2.1⟩

/-- **C8, counterexample**: in a concrete all-success run, the combined trace
copies artifacts into `output/.` yet its only creation events are the `logs`
directory and the `logs/A.txt` logfile — the `output/` directory is used but
never created, refuting "both persistent local resources are created before
first use". -/
theorem output_dir_never_created :
    (Event.copyFile "user@hostA:/tmp/go-bldbot-A/output/*.tar.gz" "output/."
       ∈ discoveryEventsA ++ dispatchTrace envOkAll buildersLiveA) ∧
    ((discoveryEventsA ++ dispatchTrace envOkAll buildersLiveA).all
       fun e => (e == Event.mkdirAllLocal "logs") ||
                (e == Event.createLocal "logs/A.txt") || !isLocalCreate e) := by
  decide

end Bldbot
